import Mathlib

/-!
# Verification of the multi-provider orchestration core (`server/orchestrator_v2.py`)

Shallow embedding of the orchestration engine: the per-provider retry loop with
circuit breaker (`_query_with_retries`), the cache-aware fan-out
(`orchestrate_query`), the query fingerprint (`generate_query_hash`) and the
provider error formatting (`BaseProvider.format_error`).

Conventions of the embedding:
* Python floats (latencies, breaker counters, backoff) are modelled as `ℚ`;
  the arithmetic the code performs on them (`+ 1.0`, `* 2`, `/ 1000`,
  comparisons) is exact on the values that occur, so `ℚ` is faithful.
* A provider result dict is the structure `PResult`; a dict key that a given
  code path does not set is modelled by the neutral value of its field
  (`""`, `none`, `0`, `false`).  The key `error_type` is read via
  `.get("error_type", "unknown")`, so it is an `Option String`.
* The module-level mutable dict `PROVIDER_STATE` is threaded explicitly:
  `_query_with_retries` takes the provider's entry (`Option BreakerState`,
  `none` = key absent) and returns the updated entry.
* `time.time()` is passed in as `now : ℚ`; the second `time.time()` call on
  the breaker-update path (line 199) is modelled by the same `now`
  (single-threaded run, zero elapsed time — the claims do not depend on the
  drift between the two reads).
* The provider coroutine `provider.query` is a behaviour function
  `Nat → PResult` giving the result of the n-th invocation (1-indexed).
-/

/-- One provider result dict (the shape produced by `BaseProvider.format_response`
/ `format_error` and by the orchestrator's synthesized error dicts). -/
structure PResult where
  status : String
  responseText : String
  responseTimeMs : ℚ
  errorType : Option String
  errorMessage : String
  retryAfterMs : Option Int
  cached : Bool
  modelUsed : String
  provider : String
  attempt : Nat
  deriving DecidableEq, Repr

/-- One entry of `PROVIDER_STATE`: `{"fail_count": float, "cooldown_until": float}`. -/
structure BreakerState where
  failCount : ℚ
  cooldownUntil : ℚ
  deriving DecidableEq, Repr

/-- `RETRYABLE_ERROR_TYPES = {"timeout", "rate_limited", "provider_down"}` (line 143). -/
def RETRYABLE_ERROR_TYPES : List String := ["timeout", "rate_limited", "provider_down"]

/-- `CIRCUIT_FAILS = 3` (line 140; the later assignment overrides the env-read one). -/
def CIRCUIT_FAILS : ℚ := 3

/-- `COOLDOWN_SECONDS = 120` (line 141). -/
def COOLDOWN_SECONDS : ℚ := 120

/-- The default dict `{"fail_count": 0.0, "cooldown_until": 0.0}` used by
`PROVIDER_STATE.get(provider_id, ...)`. -/
def defaultBreakerState : BreakerState := ⟨0, 0⟩

/-- Python `format(x, ".0f")` on a real value: round to the nearest integer,
ties to even, and print it.  (`q.num.fdiv q.den` is `⌊q⌋`, and the fractional
part `r2 / d` compares to `1/2` as `2 * r2` compares to `d`.) -/
def pyFormatF0 (q : ℚ) : String :=
  let d : Int := q.den
  let fl : Int := q.num.fdiv d
  let r2 : Int := q.num - fl * d
  let r : Int :=
    if 2 * r2 > d then fl + 1
    else if 2 * r2 < d then fl
    else if fl % 2 = 0 then fl else fl + 1
  toString r

/-- The error dict returned when the circuit is open (lines 158–167). -/
def cooldownResult (cooldownUntil : ℚ) (modelName providerName : String) : PResult :=
  { status := "error"
    errorType := some "provider_down"
    errorMessage := "Provider in cooldown until " ++ pyFormatF0 cooldownUntil
    responseTimeMs := 0
    cached := false
    modelUsed := modelName
    provider := providerName
    attempt := 0
    responseText := ""
    retryAfterMs := none }

/-- The dict substituted when the loop produced no result (lines 202–208). -/
def unknownFailure : PResult :=
  { status := "error"
    errorType := some "unknown"
    errorMessage := "Unknown failure"
    responseTimeMs := 0
    cached := false
    modelUsed := ""
    provider := ""
    attempt := 0
    responseText := ""
    retryAfterMs := none }

/-- `result.get("retry_after_ms")` followed by
`isinstance(retry_after_ms, int) and retry_after_ms > 0` (line 189):
the hint used for the sleep, if present and positive. -/
def hintMs (r : PResult) : Option Int :=
  match r.retryAfterMs with
  | some ms => if ms > 0 then some ms else none
  | none => none

/-- How the retry loop exited. -/
inductive LoopExit where
  | success (r : PResult)
  | exhausted (last : Option PResult)
  deriving DecidableEq, Repr

/-- Observable outcome of the `while` loop of `_query_with_retries`
(lines 173–193): the exit, the final value of the `attempt` counter (equal to
the number of `provider.query` invocations made), and the sequence of sleeps
performed, in seconds. -/
structure LoopOut where
  exit : LoopExit
  attempt : Nat
  waits : List ℚ
  deriving DecidableEq, Repr

/-- The `while attempt <= max_retries` loop of `_query_with_retries`
(lines 173–193), one recursive step per iteration.  `behavior n` is the result
of the n-th `provider.query` call. -/
def retryLoop (behavior : Nat → PResult) (maxRetries : Nat) :
    Nat → ℚ → Option PResult → LoopOut
  | attempt, backoff_s, last =>
    if _h : attempt ≤ maxRetries then
      -- attempt += 1; result = await provider.query(...)
      let a := attempt + 1
      let result := behavior a
      if result.status = "success" then
        ⟨.success result, a, []⟩
      else
        -- last = result; err_type = result.get("error_type", "unknown")
        let errType := result.errorType.getD "unknown"
        if errType ∉ RETRYABLE_ERROR_TYPES ∨ a > maxRetries then
          ⟨.exhausted (some result), a, []⟩
        else
          -- sleep retry_after_ms/1000 if hinted, else sleep backoff_s and double it
          let w : ℚ :=
            match hintMs result with
            | some ms => (ms : ℚ) / 1000
            | none => backoff_s
          let backoff' : ℚ :=
            match hintMs result with
            | some _ => backoff_s
            | none => backoff_s * 2
          let rest := retryLoop behavior maxRetries a backoff' (some result)
          { rest with waits := w :: rest.waits }
    else
      ⟨.exhausted last, attempt, []⟩
  termination_by attempt _ _ => maxRetries + 1 - attempt
  decreasing_by omega

/-- Observable outcome of one `_query_with_retries` call. -/
structure QOut where
  result : PResult
  newState : Option BreakerState
  invocations : Nat
  waits : List ℚ
  succeeded : Bool
  deriving DecidableEq, Repr

/-- `_query_with_retries(provider_id, prompt, timeout, max_retries)`
(lines 146–211), with the provider's `PROVIDER_STATE` entry threaded
explicitly.  `modelName` / `providerName` are `provider.model_name` and the
provider's class name, used only in the open-circuit result. -/
def _query_with_retries (behavior : Nat → PResult) (modelName providerName : String)
    (st0 : Option BreakerState) (now : ℚ) (maxRetries : Nat) : QOut :=
  -- circuit breaker check (lines 155–167)
  let state := st0.getD defaultBreakerState
  if state.cooldownUntil > now then
    { result := cooldownResult state.cooldownUntil modelName providerName
      newState := st0
      invocations := 0
      waits := []
      succeeded := false }
  else
    let out := retryLoop behavior maxRetries 0 (6/10) none
    match out.exit with
    | .success r =>
      -- PROVIDER_STATE[pid] = {0.0, 0.0}; result["attempt"] = attempt (lines 178–180)
      { result := { r with attempt := out.attempt }
        newState := some (⟨0, 0⟩ : BreakerState)
        invocations := out.attempt
        waits := out.waits
        succeeded := true }
    | .exhausted lastOpt =>
      -- update breaker (lines 196–200)
      let st := st0.getD defaultBreakerState
      let fc := st.failCount + 1
      let st' : BreakerState :=
        ⟨fc, if fc ≥ CIRCUIT_FAILS then now + COOLDOWN_SECONDS else st.cooldownUntil⟩
      let last := lastOpt.getD unknownFailure
      { result := { last with attempt := out.attempt }
        newState := some st'
        invocations := out.attempt
        waits := out.waits
        succeeded := false }

/-! ## Characterization of one iteration of the retry loop -/

/-- If the current invocation succeeds, the loop returns at once. -/
theorem retryLoop_success_step (b : Nat → PResult) (maxR attempt : Nat) (β : ℚ)
    (last : Option PResult) (h1 : attempt ≤ maxR) (h2 : (b (attempt+1)).status = "success") :
    retryLoop b maxR attempt β last = ⟨.success (b (attempt+1)), attempt+1, []⟩ := by
  rw [retryLoop, dif_pos h1]
  simp [h2]

/-- If the current invocation fails non-retryably, or was the last allowed
attempt, the loop stops with it as `last`. -/
theorem retryLoop_stop_step (b : Nat → PResult) (maxR attempt : Nat) (β : ℚ)
    (last : Option PResult) (h1 : attempt ≤ maxR) (h2 : (b (attempt+1)).status ≠ "success")
    (h3 : (b (attempt+1)).errorType.getD "unknown" ∉ RETRYABLE_ERROR_TYPES ∨ attempt+1 > maxR) :
    retryLoop b maxR attempt β last = ⟨.exhausted (some (b (attempt+1))), attempt+1, []⟩ := by
  rw [retryLoop, dif_pos h1]
  simp only [if_neg h2]
  rw [if_pos h3]

/-- If the current invocation fails retryably and attempts remain, the loop
sleeps (hint if present and positive, else current backoff, which then
doubles) and continues. -/
theorem retryLoop_cont_step (b : Nat → PResult) (maxR attempt : Nat) (β : ℚ)
    (last : Option PResult) (h1 : attempt + 1 ≤ maxR) (h2 : (b (attempt+1)).status ≠ "success")
    (h3 : (b (attempt+1)).errorType.getD "unknown" ∈ RETRYABLE_ERROR_TYPES) :
    retryLoop b maxR attempt β last =
      { retryLoop b maxR (attempt+1)
          (match hintMs (b (attempt+1)) with | some _ => β | none => β * 2)
          (some (b (attempt+1))) with
        waits := (match hintMs (b (attempt+1)) with
                  | some ms => (ms : ℚ) / 1000
                  | none => β) ::
          (retryLoop b maxR (attempt+1)
            (match hintMs (b (attempt+1)) with | some _ => β | none => β * 2)
            (some (b (attempt+1)))).waits } := by
  rw [retryLoop, dif_pos (by omega : attempt ≤ maxR)]
  simp only [if_neg h2]
  rw [if_neg (by push_neg; exact ⟨h3, by omega⟩)]

/-! ## Global properties of the retry loop -/

/-- The `attempt` counter strictly increases and never exceeds `maxR + 1`. -/
theorem retryLoop_attempt_bounds (b : Nat → PResult) (maxR attempt : Nat) (β : ℚ)
    (last : Option PResult) (h : attempt ≤ maxR) :
    attempt < (retryLoop b maxR attempt β last).attempt ∧
      (retryLoop b maxR attempt β last).attempt ≤ maxR + 1 := by
  by_cases hs : (b (attempt+1)).status = "success"
  · rw [retryLoop_success_step b maxR attempt β last h hs]
    dsimp only
    omega
  · by_cases hr : (b (attempt+1)).errorType.getD "unknown" ∈ RETRYABLE_ERROR_TYPES
    · by_cases hm : attempt + 1 ≤ maxR
      · rw [retryLoop_cont_step b maxR attempt β last hm hs hr]
        have ih := retryLoop_attempt_bounds b maxR (attempt+1)
          (match hintMs (b (attempt+1)) with | some _ => β | none => β * 2)
          (some (b (attempt+1))) hm
        dsimp only at ih ⊢
        omega
      · rw [retryLoop_stop_step b maxR attempt β last h hs (Or.inr (by omega))]
        dsimp only
        omega
    · rw [retryLoop_stop_step b maxR attempt β last h hs (Or.inl hr)]
      dsimp only
      omega
  termination_by maxR + 1 - attempt

/-- A successful exit returns exactly the result of the final invocation. -/
theorem retryLoop_exit_success (b : Nat → PResult) (maxR attempt : Nat) (β : ℚ)
    (last : Option PResult) (h : attempt ≤ maxR) (r : PResult)
    (hx : (retryLoop b maxR attempt β last).exit = .success r) :
    r = b (retryLoop b maxR attempt β last).attempt ∧ r.status = "success" := by
  by_cases hs : (b (attempt+1)).status = "success"
  · rw [retryLoop_success_step b maxR attempt β last h hs] at hx ⊢
    dsimp only at hx ⊢
    injection hx with h1
    exact ⟨h1.symm, h1 ▸ hs⟩
  · by_cases hr : (b (attempt+1)).errorType.getD "unknown" ∈ RETRYABLE_ERROR_TYPES
    · by_cases hm : attempt + 1 ≤ maxR
      · rw [retryLoop_cont_step b maxR attempt β last hm hs hr] at hx ⊢
        dsimp only at hx ⊢
        exact retryLoop_exit_success b maxR (attempt+1)
          (match hintMs (b (attempt+1)) with | some _ => β | none => β * 2)
          (some (b (attempt+1))) hm r hx
      · rw [retryLoop_stop_step b maxR attempt β last h hs (Or.inr (by omega))] at hx
        exact absurd hx (by simp)
    · rw [retryLoop_stop_step b maxR attempt β last h hs (Or.inl hr)] at hx
      exact absurd hx (by simp)
  termination_by maxR + 1 - attempt

/-- An exhausted exit carries the result of the final invocation, which did
not succeed. -/
theorem retryLoop_exit_exhausted (b : Nat → PResult) (maxR attempt : Nat) (β : ℚ)
    (last : Option PResult) (h : attempt ≤ maxR) (l : Option PResult)
    (hx : (retryLoop b maxR attempt β last).exit = .exhausted l) :
    l = some (b (retryLoop b maxR attempt β last).attempt) ∧
      (b (retryLoop b maxR attempt β last).attempt).status ≠ "success" := by
  by_cases hs : (b (attempt+1)).status = "success"
  · rw [retryLoop_success_step b maxR attempt β last h hs] at hx
    exact absurd hx (by simp)
  · by_cases hr : (b (attempt+1)).errorType.getD "unknown" ∈ RETRYABLE_ERROR_TYPES
    · by_cases hm : attempt + 1 ≤ maxR
      · rw [retryLoop_cont_step b maxR attempt β last hm hs hr] at hx ⊢
        dsimp only at hx ⊢
        exact retryLoop_exit_exhausted b maxR (attempt+1)
          (match hintMs (b (attempt+1)) with | some _ => β | none => β * 2)
          (some (b (attempt+1))) hm l hx
      · rw [retryLoop_stop_step b maxR attempt β last h hs (Or.inr (by omega))] at hx ⊢
        dsimp only at hx ⊢
        injection hx with h1
        exact ⟨h1.symm, hs⟩
    · rw [retryLoop_stop_step b maxR attempt β last h hs (Or.inl hr)] at hx ⊢
      dsimp only at hx ⊢
      injection hx with h1
      exact ⟨h1.symm, hs⟩
  termination_by maxR + 1 - attempt

/-- Every invocation strictly before the final one failed with a retryable
error category (so the first success, and the first non-retryable failure,
each end the loop at once). -/
theorem retryLoop_intermediate (b : Nat → PResult) (maxR attempt : Nat) (β : ℚ)
    (last : Option PResult) (h : attempt ≤ maxR) (j : Nat) (hj1 : attempt < j)
    (hj2 : j < (retryLoop b maxR attempt β last).attempt) :
    (b j).status ≠ "success" ∧
      (b j).errorType.getD "unknown" ∈ RETRYABLE_ERROR_TYPES := by
  by_cases hs : (b (attempt+1)).status = "success"
  · rw [retryLoop_success_step b maxR attempt β last h hs] at hj2
    dsimp only at hj2
    omega
  · by_cases hr : (b (attempt+1)).errorType.getD "unknown" ∈ RETRYABLE_ERROR_TYPES
    · by_cases hm : attempt + 1 ≤ maxR
      · rw [retryLoop_cont_step b maxR attempt β last hm hs hr] at hj2
        dsimp only at hj2
        by_cases hj : j = attempt + 1
        · exact hj ▸ ⟨hs, hr⟩
        · exact retryLoop_intermediate b maxR (attempt+1)
            (match hintMs (b (attempt+1)) with | some _ => β | none => β * 2)
            (some (b (attempt+1))) hm j (by omega) hj2
      · rw [retryLoop_stop_step b maxR attempt β last h hs (Or.inr (by omega))] at hj2
        dsimp only at hj2
        omega
    · rw [retryLoop_stop_step b maxR attempt β last h hs (Or.inl hr)] at hj2
      dsimp only at hj2
      omega
  termination_by maxR + 1 - attempt

/-! ## The sequence of sleeps -/

/-- The sleep sequence the loop performs, spelled out: starting after attempt
`s+1` with current backoff `β`, for `n` waits: each wait is the positive
integer hint of the failed attempt if present (backoff untouched), else the
current backoff, which then doubles. -/
def waitsSpec (b : Nat → PResult) : ℚ → Nat → Nat → List ℚ
  | _, _, 0 => []
  | β, s, n+1 =>
    (match hintMs (b (s+1)) with
     | some ms => (ms : ℚ) / 1000
     | none => β) ::
    waitsSpec b (match hintMs (b (s+1)) with | some _ => β | none => β * 2) (s+1) n

/-- The backoff value in force just before the `i`-th wait (0-indexed),
when the walk starts after attempt `s` with backoff `β`. -/
def backoffAt (b : Nat → PResult) : ℚ → Nat → Nat → ℚ
  | β, _, 0 => β
  | β, s, i+1 =>
    backoffAt b (match hintMs (b (s+1)) with | some _ => β | none => β * 2) (s+1) i

/-- The loop's sleeps are exactly `waitsSpec`. -/
theorem retryLoop_waits (b : Nat → PResult) (maxR attempt : Nat) (β : ℚ)
    (last : Option PResult) (h : attempt ≤ maxR) :
    (retryLoop b maxR attempt β last).waits
      = waitsSpec b β attempt ((retryLoop b maxR attempt β last).attempt - attempt - 1) := by
  by_cases hs : (b (attempt+1)).status = "success"
  · rw [retryLoop_success_step b maxR attempt β last h hs]
    dsimp only
    have e : attempt + 1 - attempt - 1 = 0 := by omega
    rw [e, waitsSpec]
  · by_cases hr : (b (attempt+1)).errorType.getD "unknown" ∈ RETRYABLE_ERROR_TYPES
    · by_cases hm : attempt + 1 ≤ maxR
      · rw [retryLoop_cont_step b maxR attempt β last hm hs hr]
        dsimp only
        have hb := retryLoop_attempt_bounds b maxR (attempt+1)
          (match hintMs (b (attempt+1)) with | some _ => β | none => β * 2)
          (some (b (attempt+1))) hm
        have ih := retryLoop_waits b maxR (attempt+1)
          (match hintMs (b (attempt+1)) with | some _ => β | none => β * 2)
          (some (b (attempt+1))) hm
        rw [ih]
        have e : (retryLoop b maxR (attempt+1)
            (match hintMs (b (attempt+1)) with | some _ => β | none => β * 2)
            (some (b (attempt+1)))).attempt - attempt - 1
          = ((retryLoop b maxR (attempt+1)
              (match hintMs (b (attempt+1)) with | some _ => β | none => β * 2)
              (some (b (attempt+1)))).attempt - (attempt+1) - 1) + 1 := by omega
        rw [e, waitsSpec]
      · rw [retryLoop_stop_step b maxR attempt β last h hs (Or.inr (by omega))]
        dsimp only
        have e : attempt + 1 - attempt - 1 = 0 := by omega
        rw [e, waitsSpec]
    · rw [retryLoop_stop_step b maxR attempt β last h hs (Or.inl hr)]
      dsimp only
      have e : attempt + 1 - attempt - 1 = 0 := by omega
      rw [e, waitsSpec]
  termination_by maxR + 1 - attempt

theorem waitsSpec_get (b : Nat → PResult) :
    ∀ (n : Nat) (β : ℚ) (s i : Nat) (h : i < (waitsSpec b β s n).length),
      (waitsSpec b β s n).get ⟨i, h⟩ =
        match hintMs (b (s+i+1)) with
        | some ms => (ms : ℚ) / 1000
        | none => backoffAt b β s i
  | 0, β, s, i, h => by simp [waitsSpec] at h
  | n+1, β, s, 0, h => by
    simp only [waitsSpec, List.get, backoffAt, Nat.add_zero]
  | n+1, β, s, i+1, h => by
    have ih := waitsSpec_get b n
      (match hintMs (b (s+1)) with | some _ => β | none => β * 2) (s+1) i
      (by simpa [waitsSpec] using h)
    simp only [waitsSpec, List.get] at ih ⊢
    rw [ih]
    have e : s + 1 + i + 1 = s + (i+1) + 1 := by omega
    rw [e]
    rfl

theorem backoffAt_eq_pow (b : Nat → PResult) :
    ∀ (i : Nat) (β : ℚ) (s : Nat),
      backoffAt b β s i
        = β * 2 ^ ((List.range i).countP (fun j => (hintMs (b (s+j+1))).isNone))
  | 0, β, s => by simp [backoffAt]
  | i+1, β, s => by
    rw [backoffAt, backoffAt_eq_pow b i]
    rw [List.range_succ_eq_map, List.countP_cons, List.countP_map]
    have e : ((fun j => (hintMs (b (s+j+1))).isNone) ∘ Nat.succ)
        = (fun j => (hintMs (b (s+1+j+1))).isNone) := by
      funext j
      show (hintMs (b (s+(j+1)+1))).isNone = (hintMs (b (s+1+j+1))).isNone
      have e2 : s + (j+1) + 1 = s + 1 + j + 1 := by omega
      rw [e2]
    rw [e]
    cases hh : hintMs (b (s+1)) with
    | some ms => simp [hh]
    | none => simp [hh]; ring

/-! ## Claim theorems for the retry executor -/

/-- Closed form of `_query_with_retries` when the breaker admits the call. -/
theorem qwr_closed (behavior : Nat → PResult) (modelName providerName : String)
    (st0 : Option BreakerState) (now : ℚ) (maxRetries : Nat)
    (hallow : (st0.getD defaultBreakerState).cooldownUntil ≤ now) :
    _query_with_retries behavior modelName providerName st0 now maxRetries =
      match (retryLoop behavior maxRetries 0 (6/10) none).exit with
      | .success r =>
        { result := { r with attempt := (retryLoop behavior maxRetries 0 (6/10) none).attempt }
          newState := some (⟨0, 0⟩ : BreakerState)
          invocations := (retryLoop behavior maxRetries 0 (6/10) none).attempt
          waits := (retryLoop behavior maxRetries 0 (6/10) none).waits
          succeeded := true }
      | .exhausted lastOpt =>
        { result := { lastOpt.getD unknownFailure with
            attempt := (retryLoop behavior maxRetries 0 (6/10) none).attempt }
          newState := some ⟨(st0.getD defaultBreakerState).failCount + 1,
            if (st0.getD defaultBreakerState).failCount + 1 ≥ CIRCUIT_FAILS then
              now + COOLDOWN_SECONDS
            else (st0.getD defaultBreakerState).cooldownUntil⟩
          invocations := (retryLoop behavior maxRetries 0 (6/10) none).attempt
          waits := (retryLoop behavior maxRetries 0 (6/10) none).waits
          succeeded := false } := by
  unfold _query_with_retries
  rw [if_neg (not_lt.mpr hallow)]

/-- A minimal successful provider result, used as a concrete behaviour. -/
def okResult : PResult :=
  { status := "success"
    responseText := "ok"
    responseTimeMs := 5
    errorType := none
    errorMessage := ""
    retryAfterMs := none
    cached := false
    modelUsed := "m"
    provider := "P"
    attempt := 0 }

/-- **C4.** When the circuit-breaker check passes, the capability is invoked
between 1 and `maxRetries + 1` times; if the run succeeded, the returned
result is the final invocation's result annotated with the attempt number and
the breaker state is reset to `{fail_count: 0, cooldown_until: 0}` regardless
of prior state; and every invocation before the final one was a failure with
a retryable category — so the first success, and the first failure with a
category outside `{timeout, rate_limited, provider_down}`, each end the loop
with no further invocations. -/
theorem C4_retry_bounds_first_success (behavior : Nat → PResult)
    (modelName providerName : String) (st0 : Option BreakerState) (now : ℚ)
    (maxRetries : Nat)
    (hallow : (st0.getD defaultBreakerState).cooldownUntil ≤ now) :
    (let out := _query_with_retries behavior modelName providerName st0 now maxRetries
     1 ≤ out.invocations ∧ out.invocations ≤ maxRetries + 1 ∧
     (out.succeeded = true →
       (behavior out.invocations).status = "success" ∧
       out.result = { behavior out.invocations with attempt := out.invocations } ∧
       out.newState = some ⟨0, 0⟩) ∧
     (∀ j, 0 < j → j < out.invocations →
       (behavior j).status ≠ "success" ∧
       (behavior j).errorType.getD "unknown" ∈ RETRYABLE_ERROR_TYPES)) := by
  have hb := retryLoop_attempt_bounds behavior maxRetries 0 (6/10) none (Nat.zero_le _)
  have hmid := retryLoop_intermediate behavior maxRetries 0 (6/10) none (Nat.zero_le _)
  rw [qwr_closed behavior modelName providerName st0 now maxRetries hallow]
  rcases hx : (retryLoop behavior maxRetries 0 (6/10) none).exit with r | l
  · have hchar := retryLoop_exit_success behavior maxRetries 0 (6/10) none
      (Nat.zero_le _) r hx
    dsimp only
    refine ⟨by omega, by omega, ?_, ?_⟩
    · intro _
      exact ⟨hchar.1 ▸ hchar.2, by rw [hchar.1], rfl⟩
    · intro j hj1 hj2
      exact hmid j hj1 hj2
  · dsimp only
    refine ⟨by omega, by omega, ?_, ?_⟩
    · intro hcontra
      simp at hcontra
    · intro j hj1 hj2
      exact hmid j hj1 hj2

/-- The `C4` theorem applied to a behaviour that succeeds immediately, from an
absent breaker entry at time 0. -/
theorem C4_retry_bounds_first_success_witness :
    ((none : Option BreakerState).getD defaultBreakerState).cooldownUntil ≤ (0:ℚ) ∧
    (let out := _query_with_retries (fun _ => okResult) "m" "P" none 0 2
     1 ≤ out.invocations ∧ out.invocations ≤ 2 + 1 ∧
     (out.succeeded = true →
       ((fun _ : Nat => okResult) out.invocations).status = "success" ∧
       out.result = { (fun _ : Nat => okResult) out.invocations with attempt := out.invocations } ∧
       out.newState = some ⟨0, 0⟩) ∧
     (∀ j, 0 < j → j < out.invocations →
       ((fun _ : Nat => okResult) j).status ≠ "success" ∧
       ((fun _ : Nat => okResult) j).errorType.getD "unknown" ∈ RETRYABLE_ERROR_TYPES)) :=
  ⟨by decide, C4_retry_bounds_first_success (fun _ => okResult) "m" "P" none 0 2 (by decide)⟩

/-- A concrete rate-limited error result carrying a retry hint. -/
def rateLimited : PResult :=
  { status := "error"
    responseText := ""
    responseTimeMs := 0
    errorType := some "rate_limited"
    errorMessage := "429"
    retryAfterMs := some 500
    cached := false
    modelUsed := ""
    provider := ""
    attempt := 0 }

/-- **C5.** Between retryable attempts the executor sleeps the hinted
`retry_after_ms / 1000` when the failed attempt carries a present positive
integer hint — leaving the exponential backoff untouched — and otherwise
sleeps the current backoff, which starts at 0.6 s and doubles after each
unhinted wait, never resetting across mixed hinted/unhinted retries. -/
theorem C5_backoff_hint_policy (behavior : Nat → PResult)
    (modelName providerName : String) (st0 : Option BreakerState) (now : ℚ)
    (maxRetries : Nat)
    (hallow : (st0.getD defaultBreakerState).cooldownUntil ≤ now) :
    (let out := _query_with_retries behavior modelName providerName st0 now maxRetries
     ∀ i, i < out.waits.length →
       out.waits.getD i 0 =
         match hintMs (behavior (i+1)) with
         | some ms => (ms : ℚ) / 1000
         | none =>
           (6/10) * 2 ^ ((List.range i).countP (fun j => (hintMs (behavior (j+1))).isNone))) := by
  have hws : (_query_with_retries behavior modelName providerName st0 now maxRetries).waits
      = (retryLoop behavior maxRetries 0 (6/10) none).waits := by
    rw [qwr_closed behavior modelName providerName st0 now maxRetries hallow]
    rcases hx : (retryLoop behavior maxRetries 0 (6/10) none).exit with r | l <;> rfl
  dsimp only
  rw [hws, retryLoop_waits behavior maxRetries 0 (6/10) none (Nat.zero_le _)]
  intro i hi
  have h2 := waitsSpec_get behavior
    ((retryLoop behavior maxRetries 0 (6/10) none).attempt - 0 - 1) (6/10) 0 i hi
  rw [backoffAt_eq_pow] at h2
  simp only [Nat.zero_add] at h2
  rw [List.getD_eq_getElem?_getD, List.getElem?_eq_getElem hi]
  rw [List.get_eq_getElem] at h2
  simpa using h2

/-- The `C5` theorem applied to a behaviour that always fails rate-limited
with a 500 ms hint. -/
theorem C5_backoff_hint_policy_witness :
    ((none : Option BreakerState).getD defaultBreakerState).cooldownUntil ≤ (0:ℚ) ∧
    (let out := _query_with_retries (fun _ => rateLimited) "m" "P" none 0 2
     ∀ i, i < out.waits.length →
       out.waits.getD i 0 =
         match hintMs ((fun _ : Nat => rateLimited) (i+1)) with
         | some ms => (ms : ℚ) / 1000
         | none =>
           (6/10) * 2 ^ ((List.range i).countP
             (fun j => (hintMs ((fun _ : Nat => rateLimited) (j+1))).isNone))) :=
  ⟨by decide, C5_backoff_hint_policy (fun _ => rateLimited) "m" "P" none 0 2 (by decide)⟩

/-! ## Claim theorems for the circuit breaker -/

/-- Substring test on code points (used to state what a message does or does
not "state"). -/
def strContains (hay needle : String) : Bool :=
  decide (needle.data <:+: hay.data)

/-- **C6 (amended).** While `cooldown_until` lies in the future, the call
returns at once — zero capability invocations — an error result with
`error_type = "provider_down"`, attempt count 0, and a message stating the
absolute cooldown deadline (`"Provider in cooldown until <deadline>"`); the
breaker entry is left unchanged. -/
theorem C6_open_circuit_result (behavior : Nat → PResult)
    (modelName providerName : String) (st0 : Option BreakerState) (now : ℚ)
    (maxRetries : Nat)
    (hcool : now < (st0.getD defaultBreakerState).cooldownUntil) :
    (let out := _query_with_retries behavior modelName providerName st0 now maxRetries
     out.invocations = 0 ∧
     out.result.status = "error" ∧
     out.result.errorType = some "provider_down" ∧
     out.result.attempt = 0 ∧
     out.result.errorMessage =
       "Provider in cooldown until "
         ++ pyFormatF0 ((st0.getD defaultBreakerState).cooldownUntil) ∧
     out.newState = st0) := by
  unfold _query_with_retries
  rw [if_pos hcool]
  exact ⟨rfl, rfl, rfl, rfl, rfl, rfl⟩

/-- The `C6` theorem applied to the state `{fail_count: 3, cooldown_until: 250}`
at time 100. -/
theorem C6_open_circuit_result_witness :
    (100:ℚ) < ((some (⟨3, 250⟩ : BreakerState)).getD defaultBreakerState).cooldownUntil ∧
    (let out := _query_with_retries (fun _ => okResult) "m" "P"
        (some (⟨3, 250⟩ : BreakerState)) 100 2
     out.invocations = 0 ∧
     out.result.status = "error" ∧
     out.result.errorType = some "provider_down" ∧
     out.result.attempt = 0 ∧
     out.result.errorMessage =
       "Provider in cooldown until "
         ++ pyFormatF0 (((some (⟨3, 250⟩ : BreakerState)).getD defaultBreakerState).cooldownUntil) ∧
     out.newState = some (⟨3, 250⟩ : BreakerState)) :=
  ⟨by decide, C6_open_circuit_result (fun _ => okResult) "m" "P"
    (some (⟨3, 250⟩ : BreakerState)) 100 2 (by decide)⟩

/-- **C6, as stated, is false**: at time 100 with `cooldown_until = 250` the
remaining cooldown is 150 seconds, but the synthesized message is
`"Provider in cooldown until 250"` — it states the absolute deadline and does
not mention the remaining 150 seconds anywhere. -/
theorem C6_counterexample :
    (_query_with_retries (fun _ => okResult) "m" "P"
        (some (⟨3, 250⟩ : BreakerState)) 100 2).result.errorMessage
      = "Provider in cooldown until 250" ∧
    ((250 : ℚ) - 100 = 150) ∧
    strContains
      ((_query_with_retries (fun _ => okResult) "m" "P"
        (some (⟨3, 250⟩ : BreakerState)) 100 2).result.errorMessage) "150" = false := by
  refine ⟨by decide, by norm_num, by decide⟩

/-- **C9.** Once the cooldown window has elapsed, the `fail_count` is *not*
reset: the next call is admitted (the capability is invoked), but if it ends
in failure — of any category — the count (already at or above the threshold)
increments again and the circuit reopens for a full `COOLDOWN_SECONDS`
window; only a success brings the state back below the threshold. -/
theorem C9_halfopen_reopen (behavior : Nat → PResult)
    (modelName providerName : String) (st : BreakerState) (now : ℚ)
    (maxRetries : Nat)
    (helapsed : st.cooldownUntil ≤ now) (hthresh : CIRCUIT_FAILS ≤ st.failCount) :
    (let out := _query_with_retries behavior modelName providerName (some st) now maxRetries
     1 ≤ out.invocations ∧
     (out.succeeded = false →
       out.newState = some ⟨st.failCount + 1, now + COOLDOWN_SECONDS⟩) ∧
     (out.succeeded = true →
       out.newState = some ⟨0, 0⟩ ∧ (0:ℚ) < CIRCUIT_FAILS)) := by
  have hb := retryLoop_attempt_bounds behavior maxRetries 0 (6/10) none (Nat.zero_le _)
  rw [qwr_closed behavior modelName providerName (some st) now maxRetries helapsed]
  rcases hx : (retryLoop behavior maxRetries 0 (6/10) none).exit with r | l
  · dsimp only
    refine ⟨by omega, by intro h; simp at h, ?_⟩
    intro _
    exact ⟨rfl, by norm_num [CIRCUIT_FAILS]⟩
  · dsimp only
    simp only [Option.getD_some]
    refine ⟨by omega, ?_, by intro h; simp at h⟩
    intro _
    have : (st.failCount + 1 ≥ CIRCUIT_FAILS) := le_trans hthresh (by linarith)
    rw [if_pos this]

/-- The `C9` theorem applied to a behaviour that always fails with
`bad_request`, from the state `{fail_count: 3, cooldown_until: 50}` at
time 100 (cooldown elapsed). -/
theorem C9_halfopen_reopen_witness :
    (⟨3, 50⟩ : BreakerState).cooldownUntil ≤ (100:ℚ) ∧
    CIRCUIT_FAILS ≤ (⟨3, 50⟩ : BreakerState).failCount ∧
    (let out := _query_with_retries (fun _ => okResult) "m" "P"
        (some (⟨3, 50⟩ : BreakerState)) 100 2
     1 ≤ out.invocations ∧
     (out.succeeded = false →
       out.newState = some ⟨(⟨3, 50⟩ : BreakerState).failCount + 1, 100 + COOLDOWN_SECONDS⟩) ∧
     (out.succeeded = true →
       out.newState = some ⟨0, 0⟩ ∧ (0:ℚ) < CIRCUIT_FAILS)) :=
  ⟨by decide, by decide,
    C9_halfopen_reopen (fun _ => okResult) "m" "P" (⟨3, 50⟩ : BreakerState) 100 2
      (by decide) (by decide)⟩

/-! ## C1: which failures trip the breaker -/

/-- A concrete `bad_request` error result (a categorical, non-retryable
failure). -/
def badRequestResult : PResult :=
  { status := "error"
    responseText := ""
    responseTimeMs := 0
    errorType := some "bad_request"
    errorMessage := "Bad request"
    retryAfterMs := none
    cached := false
    modelUsed := ""
    provider := ""
    attempt := 0 }

/-- A provider whose every invocation fails with `bad_request`. -/
def alwaysBadRequest : Nat → PResult := fun _ => badRequestResult

/-- The retry loop on `alwaysBadRequest` stops after one invocation. -/
theorem retryLoop_alwaysBadRequest :
    retryLoop alwaysBadRequest 2 0 (6/10) none
      = ⟨.exhausted (some badRequestResult), 1, []⟩ :=
  retryLoop_stop_step alwaysBadRequest 2 0 (6/10) none (by omega) (by decide)
    (Or.inl (by decide))

/-- Evaluation of one full `_query_with_retries` call on `alwaysBadRequest`
past the breaker check. -/
theorem qwr_alwaysBadRequest (st0 : Option BreakerState) (now : ℚ)
    (h : (st0.getD defaultBreakerState).cooldownUntil ≤ now) :
    _query_with_retries alwaysBadRequest "" "" st0 now 2 =
      { result := { badRequestResult with attempt := 1 }
        newState := some ⟨(st0.getD defaultBreakerState).failCount + 1,
          if (st0.getD defaultBreakerState).failCount + 1 ≥ CIRCUIT_FAILS then
            now + COOLDOWN_SECONDS
          else (st0.getD defaultBreakerState).cooldownUntil⟩
        invocations := 1
        waits := []
        succeeded := false } := by
  rw [qwr_closed alwaysBadRequest "" "" st0 now 2 h, retryLoop_alwaysBadRequest]
  rfl

/-- **C1 (amended).** Whenever the breaker admits the call and the run ends
without a success — whatever the final error category, retryable or not —
`fail_count` is incremented by exactly one, and the cooldown is set as soon
as the incremented count reaches `CIRCUIT_FAILS`. -/
theorem C1_breaker_increment_any_category (behavior : Nat → PResult)
    (modelName providerName : String) (st0 : Option BreakerState) (now : ℚ)
    (maxRetries : Nat)
    (hallow : (st0.getD defaultBreakerState).cooldownUntil ≤ now)
    (hfail : (_query_with_retries behavior modelName providerName st0 now maxRetries).succeeded
      = false) :
    (_query_with_retries behavior modelName providerName st0 now maxRetries).newState =
      some ⟨(st0.getD defaultBreakerState).failCount + 1,
        if (st0.getD defaultBreakerState).failCount + 1 ≥ CIRCUIT_FAILS then
          now + COOLDOWN_SECONDS
        else (st0.getD defaultBreakerState).cooldownUntil⟩ := by
  rw [qwr_closed behavior modelName providerName st0 now maxRetries hallow] at hfail ⊢
  rcases hx : (retryLoop behavior maxRetries 0 (6/10) none).exit with r | l
  · rw [hx] at hfail
    simp at hfail
  · rfl

/-- The `C1` amended theorem applied to `alwaysBadRequest` from an absent
breaker entry at time 0. -/
theorem C1_breaker_increment_any_category_witness :
    ((none : Option BreakerState).getD defaultBreakerState).cooldownUntil ≤ (0:ℚ) ∧
    (_query_with_retries alwaysBadRequest "" "" none 0 2).succeeded = false ∧
    (_query_with_retries alwaysBadRequest "" "" none 0 2).newState =
      some ⟨((none : Option BreakerState).getD defaultBreakerState).failCount + 1,
        if ((none : Option BreakerState).getD defaultBreakerState).failCount + 1 ≥ CIRCUIT_FAILS
        then (0:ℚ) + COOLDOWN_SECONDS
        else ((none : Option BreakerState).getD defaultBreakerState).cooldownUntil⟩ :=
  ⟨by decide, by rw [qwr_alwaysBadRequest none 0 (by decide)],
    C1_breaker_increment_any_category alwaysBadRequest "" "" none 0 2 (by decide)
      (by rw [qwr_alwaysBadRequest none 0 (by decide)])⟩

/-- **C1, as stated, is false**: a provider that fails every call with
`bad_request` — a category outside `{timeout, rate_limited, provider_down}` —
has its `fail_count` incremented on each of three calls, reaching the
threshold `CIRCUIT_FAILS = 3`, after which its cooldown is set to
`now + 120`; a fourth call inside the window is refused with
`provider_down` and zero capability invocations, i.e. the circuit *does*
open. -/
theorem C1_counterexample :
    (_query_with_retries alwaysBadRequest "" "" none 0 2).newState
        = some ⟨1, 0⟩ ∧
    (_query_with_retries alwaysBadRequest "" "" (some ⟨1, 0⟩) 0 2).newState
        = some ⟨2, 0⟩ ∧
    (_query_with_retries alwaysBadRequest "" "" (some ⟨2, 0⟩) 0 2).newState
        = some ⟨3, 120⟩ ∧
    CIRCUIT_FAILS ≤ (3:ℚ) ∧
    (_query_with_retries alwaysBadRequest "" "" (some ⟨3, 120⟩) 1 2).invocations = 0 ∧
    (_query_with_retries alwaysBadRequest "" "" (some ⟨3, 120⟩) 1 2).result.errorType
        = some "provider_down" := by
  refine ⟨?_, ?_, ?_, by decide, by decide, by decide⟩
  · rw [qwr_alwaysBadRequest none 0 (by decide)]
    dsimp only
    rw [if_neg (by norm_num [CIRCUIT_FAILS, defaultBreakerState])]
    norm_num [defaultBreakerState]
  · rw [qwr_alwaysBadRequest (some ⟨1, 0⟩) 0 (by decide)]
    dsimp only [Option.getD_some]
    rw [if_neg (by norm_num [CIRCUIT_FAILS])]
    norm_num
  · rw [qwr_alwaysBadRequest (some ⟨2, 0⟩) 0 (by decide)]
    dsimp only [Option.getD_some]
    rw [if_pos (by norm_num [CIRCUIT_FAILS])]
    norm_num [COOLDOWN_SECONDS]

/-! ## C2: the query fingerprint (`generate_query_hash`, lines 300–303) -/

/-- The string
`f"{user_id}:{query_text}:{'|'.join(sorted(agent_ids))}"` whose SHA-256 hex
digest is the fingerprint.  Python `sorted` on strings is the ascending
lexicographic (code-point) order, which is `List.insertionSort (· ≤ ·)` for
Lean strings (equal strings are indistinguishable, so stability is moot). -/
def queryHashContent (user_id : Int) (query_text : String)
    (agent_ids : List String) : String :=
  toString user_id ++ ":" ++ query_text ++ ":"
    ++ String.intercalate "|" (agent_ids.insertionSort (· ≤ ·))

/-- `generate_query_hash(user_id, query_text, agent_ids)`: the digest function
(`hashlib.sha256(...).hexdigest()`) is an external pure function, taken as a
parameter; everything the claims say about the fingerprint is decided by the
content string it is applied to. -/
def generate_query_hash (sha256_hexdigest : String → String) (user_id : Int)
    (query_text : String) (agent_ids : List String) : String :=
  sha256_hexdigest (queryHashContent user_id query_text agent_ids)

/-- **C2 (amended).** Order-independence: permuting the provider list leaves
the fingerprint unchanged (for any digest function, since the content string
is already invariant); and the fingerprint is a deterministic function of the
triple. -/
theorem C2_fingerprint_perm_invariant (sha256_hexdigest : String → String)
    (user_id : Int) (query_text : String) (agent_ids agent_ids' : List String)
    (hperm : agent_ids.Perm agent_ids') :
    generate_query_hash sha256_hexdigest user_id query_text agent_ids
      = generate_query_hash sha256_hexdigest user_id query_text agent_ids' := by
  have hs : agent_ids.insertionSort (· ≤ ·) = agent_ids'.insertionSort (· ≤ ·) :=
    List.eq_of_perm_of_sorted
      ((agent_ids.perm_insertionSort (· ≤ ·)).trans
        (hperm.trans (agent_ids'.perm_insertionSort (· ≤ ·)).symm))
      (agent_ids.sorted_insertionSort (· ≤ ·))
      (agent_ids'.sorted_insertionSort (· ≤ ·))
  unfold generate_query_hash queryHashContent
  rw [hs]

/-- The `C2` theorem applied to a transposed two-provider list. -/
theorem C2_fingerprint_perm_invariant_witness :
    (["b", "a"] : List String).Perm ["a", "b"] ∧
    generate_query_hash (fun s => s) 1 "q" ["b", "a"]
      = generate_query_hash (fun s => s) 1 "q" ["a", "b"] :=
  ⟨by decide, C2_fingerprint_perm_invariant (fun s => s) 1 "q" ["b", "a"] ["a", "b"]
    (by decide)⟩

/-- **C2's distinctness half, as stated, is false**: the content string does
not separate the query text from the provider ids — `:` and `|` occurring in
the query are ambiguous.  The triples `(1, "a:b", ["c"])` and
`(1, "a", ["b:c"])` differ in query text and provider set, yet produce the
identical content string `"1:a:b:c"`, hence the identical SHA-256 fingerprint
(any digest of equal strings is equal). -/
theorem C2_counterexample :
    queryHashContent 1 "a:b" ["c"] = queryHashContent 1 "a" ["b:c"] ∧
    generate_query_hash (fun s => s) 1 "a:b" ["c"]
      = generate_query_hash (fun s => s) 1 "a" ["b:c"] ∧
    ("a:b" ≠ "a") ∧ (["c"] ≠ ["b:c"]) := by
  refine ⟨by decide, by decide, by decide, by decide⟩

/-! ## C8: `BaseProvider.format_error` (providers/base_provider.py, lines 60–78) -/

/-- Python string slicing `s[:n]`: the first `n` code points. -/
def pySlice (s : String) (n : Nat) : String := ⟨s.data.take n⟩

/-- `BaseProvider.format_error(error_message, response_time_ms,
error_type="unknown", retry_after_ms=None)` for a provider whose
`model_name` / class name are the first two arguments. -/
def format_error (modelName providerName : String) (error_message : String)
    (response_time_ms : ℚ) (error_type : String) (retry_after_ms : Option Int) :
    PResult :=
  { status := "error"
    errorType := some error_type
    errorMessage := pySlice error_message 500
    retryAfterMs := retry_after_ms
    responseTimeMs := response_time_ms
    modelUsed := modelName
    provider := providerName
    responseText := ""
    cached := false
    attempt := 0 }

/-- **C8 (amended).** The message a provider error result carries is the raw
message truncated to its first 500 characters — nothing else: no line-break
stripping and no ellipsis marker — so it is bounded by 500, not 140, and a
short message passes through verbatim. -/
theorem C8_format_error_truncation (modelName providerName error_message : String)
    (response_time_ms : ℚ) (error_type : String) (retry_after_ms : Option Int) :
    (format_error modelName providerName error_message response_time_ms
        error_type retry_after_ms).errorMessage = pySlice error_message 500 ∧
    (format_error modelName providerName error_message response_time_ms
        error_type retry_after_ms).errorMessage.length ≤ 500 ∧
    (error_message.length ≤ 500 →
      (format_error modelName providerName error_message response_time_ms
        error_type retry_after_ms).errorMessage = error_message) := by
  refine ⟨rfl, ?_, ?_⟩
  · show (error_message.data.take 500).length ≤ 500
    simp [List.length_take_le]
  · intro h
    show (⟨error_message.data.take 500⟩ : String) = error_message
    rw [List.take_of_length_le h]

/-- The `C8` amended theorem applied to the message `"bad\nrequest"`. -/
theorem C8_format_error_truncation_witness :
    (format_error "m" "P" "bad\nrequest" 0 "bad_request" none).errorMessage
        = pySlice "bad\nrequest" 500 ∧
    (format_error "m" "P" "bad\nrequest" 0 "bad_request" none).errorMessage.length ≤ 500 ∧
    (("bad\nrequest" : String).length ≤ 500 →
      (format_error "m" "P" "bad\nrequest" 0 "bad_request" none).errorMessage
        = "bad\nrequest") :=
  C8_format_error_truncation "m" "P" "bad\nrequest" 0 "bad_request" none

/-- A 150-character raw provider message containing a line break. -/
def longRawMessage : String := ⟨List.replicate 70 'a' ++ '\n' :: List.replicate 79 'b'⟩

set_option maxRecDepth 4000 in
/-- **C8, as stated, is false**: `format_error` passes this 150-character
message through unchanged — it exceeds the claimed 140-character budget, its
line break is not stripped, and no ellipsis marker (`"..."` or `"…"`) is
appended. -/
theorem C8_counterexample :
    (format_error "m" "P" longRawMessage 0 "bad_request" none).errorMessage
        = longRawMessage ∧
    longRawMessage.length = 150 ∧
    strContains longRawMessage "\n" = true ∧
    ¬((format_error "m" "P" longRawMessage 0 "bad_request" none).errorMessage.length ≤ 140) ∧
    strContains (format_error "m" "P" longRawMessage 0 "bad_request" none).errorMessage
        "..." = false ∧
    strContains (format_error "m" "P" longRawMessage 0 "bad_request" none).errorMessage
        "…" = false := by
  decide

/-! ## The fan-out orchestrator (`orchestrate_query`, lines 372–565)

Python dicts keyed by provider id are association lists in insertion order;
`m[k] = v` replaces in place or appends, `{**a, **b}` starts from `a` and
inserts `b`'s entries in order.  The cache select, the `pid in PROVIDERS`
test and the awaited per-provider task are the three external effects, passed
in as functions of the provider id. -/

/-- Python dict assignment `m[k] = v`. -/
def dictInsert : List (String × PResult) → String → PResult → List (String × PResult)
  | [], k, v => [(k, v)]
  | kv :: rest, k, v =>
    if kv.1 = k then (k, v) :: rest else kv :: dictInsert rest k v

/-- Python dict lookup (first occurrence of the key). -/
def dictLookup : List (String × PResult) → String → Option PResult
  | [], _ => none
  | kv :: rest, k => if kv.1 = k then some kv.2 else dictLookup rest k

/-- `{**a, **b}` (line 516). -/
def dictMerge (a b : List (String × PResult)) : List (String × PResult) :=
  b.foldl (fun acc kv => dictInsert acc kv.1 kv.2) a

/-- The keys, in order. -/
def dictKeys (m : List (String × PResult)) : List String := m.map (·.1)

/-- A `for pid in l:`-loop writing `m[pid] = v` for those ids where `f`
produces an entry. -/
def dictOfIds (f : String → Option PResult) (l : List String)
    (init : List (String × PResult)) : List (String × PResult) :=
  l.foldl (fun acc pid =>
    match f pid with
    | some v => dictInsert acc pid v
    | none => acc) init

theorem dictLookup_insert (m : List (String × PResult)) (k k' : String) (v : PResult) :
    dictLookup (dictInsert m k v) k' = if k = k' then some v else dictLookup m k' := by
  induction m with
  | nil => rfl
  | cons kv rest ih =>
    rw [dictInsert]
    by_cases h1 : kv.1 = k
    · rw [if_pos h1, dictLookup, dictLookup, h1]
      dsimp only
      by_cases h2 : k = k'
      · simp only [if_pos h2]
      · simp only [if_neg h2]
    · rw [if_neg h1, dictLookup, dictLookup]
      by_cases h2 : kv.1 = k'
      · have h3 : ¬ k = k' := fun hh => h1 (h2.trans hh.symm)
        rw [if_pos h2, if_pos h2, if_neg h3]
      · rw [if_neg h2, if_neg h2, ih]

theorem dictLookup_not_mem (m : List (String × PResult)) (k : String)
    (h : k ∉ dictKeys m) : dictLookup m k = none := by
  induction m with
  | nil => rfl
  | cons kv rest ih =>
    simp only [dictKeys, List.map_cons, List.mem_cons] at h
    push_neg at h
    rw [dictLookup, if_neg (fun hh => h.1 hh.symm)]
    exact ih h.2

theorem mem_dictKeys_insert (m : List (String × PResult)) (k : String) (v : PResult)
    (x : String) :
    x ∈ dictKeys (dictInsert m k v) ↔ x ∈ dictKeys m ∨ x = k := by
  induction m with
  | nil => simp [dictInsert, dictKeys]
  | cons kv rest ih =>
    rw [dictInsert]
    by_cases h1 : kv.1 = k
    · rw [if_pos h1]
      simp only [dictKeys, List.map_cons, List.mem_cons] at ih ⊢
      rw [h1]
      tauto
    · rw [if_neg h1]
      simp only [dictKeys, List.map_cons, List.mem_cons] at ih ⊢
      rw [ih]
      tauto

theorem dictKeys_insert_nodup (m : List (String × PResult)) (k : String) (v : PResult)
    (h : (dictKeys m).Nodup) : (dictKeys (dictInsert m k v)).Nodup := by
  induction m with
  | nil => simp [dictInsert, dictKeys]
  | cons kv rest ih =>
    rw [dictInsert]
    simp only [dictKeys, List.map_cons, List.nodup_cons] at h
    by_cases h1 : kv.1 = k
    · rw [if_pos h1]
      simp only [dictKeys, List.map_cons, List.nodup_cons]
      exact ⟨by simpa [dictKeys, h1] using h.1, h.2⟩
    · rw [if_neg h1]
      simp only [dictKeys, List.map_cons, List.nodup_cons]
      refine ⟨?_, ih h.2⟩
      intro hmem
      rcases (mem_dictKeys_insert rest k v kv.1).mp (by simpa [dictKeys] using hmem)
        with hh | hh
      · exact h.1 (by simpa [dictKeys] using hh)
      · exact h1 hh

theorem dictKeys_dictOfIds_nodup (f : String → Option PResult) (l : List String)
    (init : List (String × PResult)) (h : (dictKeys init).Nodup) :
    (dictKeys (dictOfIds f l init)).Nodup := by
  induction l generalizing init with
  | nil => exact h
  | cons p rest ih =>
    have step : dictOfIds f (p :: rest) init
        = dictOfIds f rest (match f p with
            | some v => dictInsert init p v
            | none => init) := rfl
    rw [step]
    cases hf : f p with
    | none => exact ih init h
    | some v => exact ih (dictInsert init p v) (dictKeys_insert_nodup init p v h)

theorem dictLookup_merge (a b : List (String × PResult)) (k : String)
    (hnd : (dictKeys b).Nodup) :
    dictLookup (dictMerge a b) k =
      match dictLookup b k with
      | some v => some v
      | none => dictLookup a k := by
  induction b generalizing a with
  | nil => rfl
  | cons kv rest ih =>
    simp only [dictKeys, List.map_cons, List.nodup_cons] at hnd
    have step : dictMerge a (kv :: rest) = dictMerge (dictInsert a kv.1 kv.2) rest := rfl
    rw [step, ih (dictInsert a kv.1 kv.2) hnd.2]
    by_cases h1 : kv.1 = k
    · have hnone : dictLookup rest k = none := by
        refine dictLookup_not_mem rest k ?_
        simpa [dictKeys, h1] using hnd.1
      have e1 : dictLookup (kv :: rest) k = some kv.2 := by rw [dictLookup, if_pos h1]
      rw [hnone, e1]
      dsimp only
      rw [dictLookup_insert, if_pos h1]
    · have e1 : dictLookup (kv :: rest) k = dictLookup rest k := by
        rw [dictLookup, if_neg h1]
      rw [e1]
      cases hr : dictLookup rest k with
      | some v => rfl
      | none =>
        dsimp only
        rw [dictLookup_insert, if_neg h1]

theorem dictLookup_dictOfIds (f : String → Option PResult) (l : List String)
    (init : List (String × PResult)) (k : String) :
    dictLookup (dictOfIds f l init) k =
      match f k with
      | some v => if k ∈ l then some v else dictLookup init k
      | none => dictLookup init k := by
  induction l generalizing init with
  | nil => cases hf : f k <;> simp [dictOfIds]
  | cons p rest ih =>
    have step : dictOfIds f (p :: rest) init
        = dictOfIds f rest (match f p with
            | some v => dictInsert init p v
            | none => init) := rfl
    rw [step, ih]
    by_cases hpk : k = p
    · subst hpk
      cases hf : f k with
      | none => rfl
      | some v =>
        dsimp only
        rw [if_pos (List.mem_cons_self k rest)]
        by_cases hk : k ∈ rest
        · rw [if_pos hk]
        · rw [if_neg hk, dictLookup_insert, if_pos rfl]
    · have hmm : (k ∈ p :: rest) ↔ (k ∈ rest) := by
        simp [List.mem_cons, hpk]
      cases hf : f k with
      | none =>
        cases hf2 : f p with
        | none => rfl
        | some w =>
          dsimp only
          rw [dictLookup_insert, if_neg (fun hh : p = k => hpk hh.symm)]
      | some v =>
        cases hf2 : f p with
        | none =>
          dsimp only
          rw [if_congr hmm rfl rfl]
        | some w =>
          dsimp only
          by_cases hk : k ∈ rest
          · rw [if_pos hk, if_pos (hmm.mpr hk)]
          · rw [if_neg hk, if_neg (fun hh => hk (hmm.mp hh)), dictLookup_insert,
              if_neg (fun hh : p = k => hpk hh.symm)]

/-- Outcome of the per-provider cache `select` (lines 414–435): a row with its
text, no row, or a raised exception (the `except` treats it as a miss). -/
inductive CacheLookup where
  | hit (text : String)
  | miss
  | fail
  deriving DecidableEq, Repr

/-- Outcome of one awaited provider task as collected by `asyncio.gather`
with `return_exceptions=True` under `asyncio.wait_for` (lines 447–459): a
returned result dict, an `asyncio.TimeoutError` from the outer deadline, or
any other exception. -/
inductive TaskOutcome where
  | ok (r : PResult)
  | timedOut
  | exc (msg : String)
  deriving DecidableEq, Repr

/-- The cache-hit entry (lines 426–431). -/
def cachedResult (text : String) : PResult :=
  { status := "success"
    responseText := text
    responseTimeMs := 0
    cached := true
    errorType := none
    errorMessage := ""
    retryAfterMs := none
    modelUsed := ""
    provider := ""
    attempt := 0 }

/-- The outer-deadline timeout entry (lines 460–467). -/
def outerTimeoutResult (timeout : Int) : PResult :=
  { status := "error"
    errorType := some "timeout"
    errorMessage := "Timed out after " ++ toString timeout ++ "s"
    cached := false
    responseTimeMs := (timeout : ℚ) * 1000
    responseText := ""
    retryAfterMs := none
    modelUsed := ""
    provider := ""
    attempt := 0 }

/-- The captured-exception entry (lines 470–477): `str(result)[:200]`. -/
def excResult (msg : String) : PResult :=
  { status := "error"
    errorType := some "unknown"
    errorMessage := pySlice msg 200
    cached := false
    responseTimeMs := 0
    responseText := ""
    retryAfterMs := none
    modelUsed := ""
    provider := ""
    attempt := 0 }

/-- The entry for a requested but uninitialized provider (lines 494–501). -/
def notInitializedResult : PResult :=
  { status := "error"
    errorType := some "not_initialized"
    errorMessage := "Provider not initialized (missing API key?)"
    cached := false
    responseTimeMs := 0
    responseText := ""
    retryAfterMs := none
    modelUsed := ""
    provider := ""
    attempt := 0 }

/-- `r.get("status") == "success" and (r.get("response_text") or "").strip()`
(lines 3–7 and 526, 532–536): success with text that is non-empty after
stripping whitespace.  (`Char.isWhitespace` covers the whitespace these
messages contain; Python additionally strips `\x0b`, `\x0c` and Unicode
spaces.) -/
def isSuccessNonempty (r : PResult) : Bool :=
  r.status == "success" && !(r.responseText.data.all (fun c => c.isWhitespace))

/-- `_pick_first_success_provider_id(responses)` (lines 3–7). -/
def _pick_first_success_provider_id (responses : List (String × PResult)) :
    Option String :=
  (responses.find? (fun kv => isSuccessNonempty kv.2)).map (·.1)

/-- Observables of one `orchestrate_query` run. -/
structure OrchestrateOut where
  finalAnswer : String
  responses : List (String × PResult)
  cacheWrites : List (String × String)
  lookups : List String
  dispatched : List String
  deriving DecidableEq, Repr

/-- The cache-check loop (lines 414–435): for each requested provider, a hit
adds the cached success entry to `cached_responses`. -/
def cached_responsesOf (provider_ids : List String) (dbPresent : Bool)
    (cache : String → CacheLookup) : List (String × PResult) :=
  if dbPresent then
    dictOfIds (fun pid =>
      match cache pid with
      | .hit text => some (cachedResult text)
      | _ => none) provider_ids []
  else []

/-- The same loop's misses (a raised select counts as a miss, lines 432–435);
without a db, all requested providers are uncached (line 437). -/
def uncached_providersOf (provider_ids : List String) (dbPresent : Bool)
    (cache : String → CacheLookup) : List String :=
  if dbPresent then
    provider_ids.filter (fun pid =>
      match cache pid with
      | .hit _ => false
      | _ => true)
  else provider_ids

/-- `skipped_uninitialized` (line 440): requested but not in `PROVIDERS`. -/
def skipped_uninitializedOf (provider_ids : List String)
    (initialized : String → Bool) : List String :=
  provider_ids.filter (fun pid => !(initialized pid))

/-- `to_run` (line 443): uncached and initialized. -/
def to_runOf (provider_ids : List String) (dbPresent : Bool)
    (cache : String → CacheLookup) (initialized : String → Bool) : List String :=
  (uncached_providersOf provider_ids dbPresent cache).filter
    (fun pid => initialized pid)

/-- How one gathered task outcome becomes a response entry (lines 459–480):
an outer timeout and a captured exception become synthesized error dicts; a
returned dict gets `"cached": False` added. -/
def taskResultOf (task : String → TaskOutcome) (timeout : Int) :
    String → PResult := fun pid =>
  match task pid with
  | .timedOut => outerTimeoutResult timeout
  | .exc m => excResult m
  | .ok r => { r with cached := false }

/-- `new_responses` (lines 455–501): the gathered results for `to_run`, then
the `not_initialized` entries for the skipped providers. -/
def new_responsesOf (provider_ids : List String) (dbPresent : Bool)
    (cache : String → CacheLookup) (initialized : String → Bool)
    (task : String → TaskOutcome) (timeout : Int) : List (String × PResult) :=
  dictOfIds (fun _ => some notInitializedResult)
    (skipped_uninitializedOf provider_ids initialized)
    (dictOfIds (fun pid => some (taskResultOf task timeout pid))
      (to_runOf provider_ids dbPresent cache initialized) [])

/-- `all_responses = {**cached_responses, **new_responses}` (line 516). -/
def all_responsesOf (provider_ids : List String) (dbPresent : Bool)
    (cache : String → CacheLookup) (initialized : String → Bool)
    (task : String → TaskOutcome) (timeout : Int) : List (String × PResult) :=
  dictMerge (cached_responsesOf provider_ids dbPresent cache)
    (new_responsesOf provider_ids dbPresent cache initialized task timeout)

/-- The `db.add(Cache(...))` calls (lines 483–491): one per dispatched `ok`
result with status success, in dispatch order. -/
def cacheWritesOf (provider_ids : List String) (dbPresent : Bool)
    (cache : String → CacheLookup) (initialized : String → Bool)
    (task : String → TaskOutcome) : List (String × String) :=
  if dbPresent then
    (to_runOf provider_ids dbPresent cache initialized).filterMap (fun pid =>
      match task pid with
      | .ok r => if r.status == "success" then some (pid, r.responseText) else none
      | _ => none)
  else []

/-- The synthesis step (lines 518–529).  `_pick_first_success_provider_id`
selects a provider, but the `try:` block then calls
`_build_synthesis_prompt`, a name defined nowhere in the module (only
`build_synthesis_prompt` exists, line 76); the call raises `NameError` on
every execution and the `except Exception` handler leaves
`final_answer = None`. -/
def synthAnswerOf : Option String := none

/-- `final_answer` (lines 518–538): the (always absent) synthesized answer,
else the first successful non-empty response text, else the sentinel. -/
def finalAnswerOf (provider_ids : List String) (dbPresent : Bool)
    (cache : String → CacheLookup) (initialized : String → Bool)
    (task : String → TaskOutcome) (timeout : Int) : String :=
  match synthAnswerOf with
  | some a => a
  | none =>
    match (all_responsesOf provider_ids dbPresent cache initialized task
        timeout).find? (fun kv => isSuccessNonempty kv.2) with
    | some kv => kv.2.responseText
    | none => "No provider succeeded. Try again."

/-- `orchestrate_query(user_id, query_text, provider_ids, db, timeout)`
(lines 372–565), in its observable behaviour, assembled from the section
functions above.

* `dbPresent` is `db is not None`; `cache pid` is the outcome of the
  `select(Cache)` for this request's `(query_hash, provider_id, user_id)`;
  `initialized pid` is `pid in PROVIDERS`; `task pid` is the collected
  outcome of the dispatched `_query_with_retries` task for `pid`.
* `lookups` records which providers were looked up in the cache (the loop at
  line 414 runs over `provider_ids` exactly when `db` is present);
  `dispatched` is `to_run`; `cacheWrites` the `db.add(Cache(...))` calls. -/
def orchestrate_query (provider_ids : List String) (dbPresent : Bool)
    (cache : String → CacheLookup) (initialized : String → Bool)
    (task : String → TaskOutcome) (timeout : Int) : OrchestrateOut :=
  { finalAnswer := finalAnswerOf provider_ids dbPresent cache initialized task timeout
    responses := all_responsesOf provider_ids dbPresent cache initialized task timeout
    cacheWrites := cacheWritesOf provider_ids dbPresent cache initialized task
    lookups := if dbPresent then provider_ids else []
    dispatched := to_runOf provider_ids dbPresent cache initialized }

/-- `new_responsesOf` never holds duplicate keys. -/
theorem new_responses_keys_nodup (provider_ids : List String) (dbPresent : Bool)
    (cache : String → CacheLookup) (initialized : String → Bool)
    (task : String → TaskOutcome) (timeout : Int) :
    (dictKeys (new_responsesOf provider_ids dbPresent cache initialized task
      timeout)).Nodup :=
  dictKeys_dictOfIds_nodup _ _ _
    (dictKeys_dictOfIds_nodup _ _ _ (by simp [dictKeys]))

/-- A dispatched provider's entry among the fresh responses is exactly its
gathered task outcome. -/
theorem dictLookup_new_responses_dispatched (provider_ids : List String)
    (dbPresent : Bool) (cache : String → CacheLookup) (initialized : String → Bool)
    (task : String → TaskOutcome) (timeout : Int) (pid : String)
    (hrun : pid ∈ to_runOf provider_ids dbPresent cache initialized) :
    dictLookup (new_responsesOf provider_ids dbPresent cache initialized task
        timeout) pid
      = some (taskResultOf task timeout pid) := by
  have hinit : initialized pid = true := (List.mem_filter.mp hrun).2
  have hskip : pid ∉ skipped_uninitializedOf provider_ids initialized := by
    intro hc
    have h2 := (List.mem_filter.mp hc).2
    simp [hinit] at h2
  rw [new_responsesOf, dictLookup_dictOfIds]
  dsimp only
  rw [if_neg hskip, dictLookup_dictOfIds]
  dsimp only
  rw [if_pos hrun]

/-- **C7.** No provider failure leaves `orchestrate_query` as an exception:
an outer-deadline timeout of a dispatched task surfaces as a synthesized
`timeout` error entry, a raised exception as a truncated `unknown` error
entry; and when no entry at all is a success with non-empty text, the final
answer is the fixed sentinel string, not an error. -/
theorem C7_failures_surface_as_data (provider_ids : List String) (dbPresent : Bool)
    (cache : String → CacheLookup) (initialized : String → Bool)
    (task : String → TaskOutcome) (timeout : Int) :
    (let out := orchestrate_query provider_ids dbPresent cache initialized task timeout
     (∀ pid ∈ out.dispatched, task pid = .timedOut →
        dictLookup out.responses pid = some (outerTimeoutResult timeout)) ∧
     (∀ pid ∈ out.dispatched, ∀ msg, task pid = .exc msg →
        dictLookup out.responses pid = some (excResult msg)) ∧
     ((∀ kv ∈ out.responses, isSuccessNonempty kv.2 = false) →
        out.finalAnswer = "No provider succeeded. Try again.")) := by
  dsimp only
  simp only [orchestrate_query]
  refine ⟨?_, ?_, ?_⟩
  · intro pid hrun htask
    rw [all_responsesOf,
      dictLookup_merge _ _ _ (new_responses_keys_nodup _ _ _ _ _ _),
      dictLookup_new_responses_dispatched _ _ _ _ _ _ _ hrun]
    dsimp only
    simp only [taskResultOf, htask]
  · intro pid hrun msg htask
    rw [all_responsesOf,
      dictLookup_merge _ _ _ (new_responses_keys_nodup _ _ _ _ _ _),
      dictLookup_new_responses_dispatched _ _ _ _ _ _ _ hrun]
    dsimp only
    simp only [taskResultOf, htask]
  · intro hall
    have hnone : (all_responsesOf provider_ids dbPresent cache initialized task
        timeout).find? (fun kv => isSuccessNonempty kv.2) = none := by
      apply List.find?_eq_none.mpr
      intro x hx
      simp [hall x hx]
    unfold finalAnswerOf
    rw [hnone]
    rfl

/-- The `C7` theorem applied to two dispatched providers, one hitting the
outer deadline and one raising. -/
theorem C7_failures_surface_as_data_witness :
    (let out := orchestrate_query ["a", "b"] false (fun _ => .miss)
        (fun _ => true)
        (fun pid => if pid = "a" then .timedOut else .exc "boom") 30
     (∀ pid ∈ out.dispatched,
        (fun pid => if pid = "a" then TaskOutcome.timedOut else .exc "boom") pid
          = .timedOut →
        dictLookup out.responses pid = some (outerTimeoutResult 30)) ∧
     (∀ pid ∈ out.dispatched, ∀ msg,
        (fun pid => if pid = "a" then TaskOutcome.timedOut else .exc "boom") pid
          = .exc msg →
        dictLookup out.responses pid = some (excResult msg)) ∧
     ((∀ kv ∈ out.responses, isSuccessNonempty kv.2 = false) →
        out.finalAnswer = "No provider succeeded. Try again.")) :=
  C7_failures_surface_as_data ["a", "b"] false (fun _ => .miss) (fun _ => true)
    (fun pid => if pid = "a" then .timedOut else .exc "boom") 30

/-- **C3 (amended).** With a db present: every requested provider is looked
up in the cache once before dispatch; a hit on an *initialized* provider
removes it from the dispatch set and its entry in the returned map is the
cached success result (`cached = true`, `response_time_ms = 0`); and a fresh
result is written back if and only if it is a returned (`ok`) result with
status success — synthesized timeout/exception errors and error results are
never stored.  (For a hit on an *uninitialized* provider see the
counterexample: the entry is overwritten by the `not_initialized` error.) -/
theorem C3_cache_policy (provider_ids : List String) (cache : String → CacheLookup)
    (initialized : String → Bool) (task : String → TaskOutcome) (timeout : Int)
    (pid text : String) (hmem : pid ∈ provider_ids) (hhit : cache pid = .hit text)
    (hinit : initialized pid = true) :
    (let out := orchestrate_query provider_ids true cache initialized task timeout
     out.lookups = provider_ids ∧
     pid ∉ out.dispatched ∧
     dictLookup out.responses pid = some (cachedResult text) ∧
     (∀ p t, (p, t) ∈ out.cacheWrites ↔
       ∃ r, p ∈ out.dispatched ∧ task p = .ok r ∧ r.status = "success"
         ∧ t = r.responseText)) := by
  dsimp only
  simp only [orchestrate_query]
  have hnotrun : pid ∉ to_runOf provider_ids true cache initialized := by
    intro hc
    have h1 := (List.mem_filter.mp hc).1
    rw [uncached_providersOf, if_pos rfl] at h1
    have h2 := (List.mem_filter.mp h1).2
    rw [hhit] at h2
    simp at h2
  refine ⟨by simp, hnotrun, ?_, ?_⟩
  · have hskip : pid ∉ skipped_uninitializedOf provider_ids initialized := by
      intro hc
      have h2 := (List.mem_filter.mp hc).2
      simp [hinit] at h2
    have hnew : dictLookup (new_responsesOf provider_ids true cache initialized
        task timeout) pid = none := by
      rw [new_responsesOf, dictLookup_dictOfIds]
      dsimp only
      rw [if_neg hskip, dictLookup_dictOfIds]
      dsimp only
      rw [if_neg hnotrun]
      rfl
    rw [all_responsesOf,
      dictLookup_merge _ _ _ (new_responses_keys_nodup _ _ _ _ _ _), hnew]
    dsimp only
    rw [cached_responsesOf, if_pos rfl, dictLookup_dictOfIds, hhit]
    dsimp only
    rw [if_pos hmem]
  · intro p t
    rw [cacheWritesOf, if_pos rfl]
    constructor
    · intro hw
      rcases List.mem_filterMap.mp hw with ⟨a, ha, hfa⟩
      cases htask : task a with
      | ok r =>
        rw [htask] at hfa
        dsimp only at hfa
        by_cases hst : r.status == "success"
        · rw [if_pos hst] at hfa
          simp only [Option.some.injEq, Prod.mk.injEq] at hfa
          obtain ⟨rfl, rfl⟩ := hfa
          exact ⟨r, ha, htask, by simpa using hst, rfl⟩
        · rw [if_neg hst] at hfa
          cases hfa
      | timedOut =>
        rw [htask] at hfa
        cases hfa
      | exc m =>
        rw [htask] at hfa
        cases hfa
    · rintro ⟨r, hp, htask, hst, ht⟩
      apply List.mem_filterMap.mpr
      refine ⟨p, hp, ?_⟩
      rw [htask]
      dsimp only
      rw [if_pos (by simp [hst]), ht]

/-- The `C3` theorem applied to an initialized provider with a cache hit next
to a dispatched one. -/
theorem C3_cache_policy_witness :
    ("p" : String) ∈ ["p", "q"] ∧
    ((fun pid => if pid = "p" then CacheLookup.hit "hello" else .miss) "p"
      = .hit "hello") ∧
    ((fun _ : String => true) "p" = true) ∧
    (let out := orchestrate_query ["p", "q"] true
        (fun pid => if pid = "p" then CacheLookup.hit "hello" else .miss)
        (fun _ => true) (fun _ => .ok okResult) 30
     out.lookups = ["p", "q"] ∧
     "p" ∉ out.dispatched ∧
     dictLookup out.responses "p" = some (cachedResult "hello") ∧
     (∀ p t, (p, t) ∈ out.cacheWrites ↔
       ∃ r, p ∈ out.dispatched ∧ (fun _ : String => TaskOutcome.ok okResult) p = .ok r
         ∧ r.status = "success" ∧ t = r.responseText)) :=
  ⟨by decide, by decide, by decide,
    C3_cache_policy ["p", "q"]
      (fun pid => if pid = "p" then CacheLookup.hit "hello" else .miss)
      (fun _ => true) (fun _ => .ok okResult) 30 "p" "hello"
      (by decide) (by decide) (by decide)⟩

/-- **C3, as stated, is false** for a provider that has a cache hit but is
not initialized: the provider is not dispatched, yet its entry in the
returned map is the `not_initialized` error — the merge `{**cached, **new}`
overwrites the cached success entry — so the map does not show
`cached = true` / status success for this hit. -/
theorem C3_counterexample :
    (let out := orchestrate_query ["p"] true (fun _ => .hit "cached answer")
        (fun _ => false) (fun _ => .ok okResult) 30
     (fun _ : String => CacheLookup.hit "cached answer") "p" = .hit "cached answer" ∧
     out.dispatched = [] ∧
     dictLookup out.responses "p" = some notInitializedResult ∧
     notInitializedResult.status = "error" ∧
     notInitializedResult.cached = false) := by
  decide

/-- **C10.** Whenever some provider produced a successful non-empty answer,
the final answer is the *raw* response text of the first such provider in the
combined map's order: the synthesis step never contributes, because its
prompt construction calls `_build_synthesis_prompt`, which is not defined
anywhere in the module (`build_synthesis_prompt` is, line 76); the `NameError`
is caught at line 528 and the raw-text fallback loop supplies the answer. -/
theorem C10_final_answer_first_raw_success (provider_ids : List String)
    (dbPresent : Bool) (cache : String → CacheLookup) (initialized : String → Bool)
    (task : String → TaskOutcome) (timeout : Int) (pid : String) (r : PResult)
    (hfirst : (orchestrate_query provider_ids dbPresent cache initialized task
        timeout).responses.find? (fun kv => isSuccessNonempty kv.2)
      = some (pid, r)) :
    (orchestrate_query provider_ids dbPresent cache initialized task
        timeout).finalAnswer = r.responseText := by
  have hfirst' : (all_responsesOf provider_ids dbPresent cache initialized task
      timeout).find? (fun kv => isSuccessNonempty kv.2) = some (pid, r) := hfirst
  show finalAnswerOf provider_ids dbPresent cache initialized task timeout
    = r.responseText
  unfold finalAnswerOf
  rw [hfirst']
  rfl

/-- The `C10` theorem applied to a single provider returning a successful
non-empty answer. -/
theorem C10_final_answer_first_raw_success_witness :
    (orchestrate_query ["p"] false (fun _ => .miss) (fun _ => true)
        (fun _ => .ok okResult) 30).responses.find?
        (fun kv => isSuccessNonempty kv.2)
      = some ("p", { okResult with cached := false }) ∧
    (orchestrate_query ["p"] false (fun _ => .miss) (fun _ => true)
        (fun _ => .ok okResult) 30).finalAnswer
      = ({ okResult with cached := false } : PResult).responseText :=
  ⟨by decide,
    C10_final_answer_first_raw_success ["p"] false (fun _ => .miss) (fun _ => true)
      (fun _ => .ok okResult) 30 "p" { okResult with cached := false } (by decide)⟩
